import Mathlib

/-!
Shallow embedding of the dbkit core (src/src/types.rs and
src/src/operation/mod.rs): the symbolic type system, the RawData buffer
descriptor, the Value tagged union and its conversions, and the
pull-based cursor protocol.  Machine addresses and byte contents are
modelled as natural numbers; memory is a total function from addresses
to byte values.
-/

namespace dbkit

/-- Embeds the Rust enum `Type` (types.rs, lines 43-54).  `Type` itself is a
reserved word in Lean, so the enum is named `DbType` here. -/
inductive DbType where
  | UINT32
  | UINT64
  | INT32
  | INT64
  | FLOAT32
  | FLOAT64
  | BOOLEAN
  | TEXT
  | BLOB
deriving DecidableEq, Repr, Fintype

/-- Embeds `DBError` from src/src/error.rs as far as this core uses it:
the `UnknownType` variant carrying the offending text
(types.rs, line 187). -/
inductive DBError where
  | UnknownType (name : String)
deriving DecidableEq, Repr

/-- Byte size of a pointer-sized word (`*mut u8` / `usize`) on the 64-bit
target the crate compiles for. -/
def ptrWordSize : Nat := 8

/-- Embeds the struct `RawData` (types.rs, lines 26-31): a raw memory
address plus a byte length.  The address is a plain machine word; the
value 0 is the null pointer. -/
structure RawData where
  data : Nat
  size : Nat
deriving DecidableEq, Repr

/-- `mem::size_of::<RawData>()`: two pointer-sized words
(`data: *mut u8` and `size: usize`), with no padding. -/
def RawData.byteSize : Nat := 2 * ptrWordSize

/-- Embeds `impl AsRef<str> for RawData` (types.rs, lines 33-40).  The Rust
code calls `slice::from_raw_parts(self.data, self.size)` unconditionally
and then `str::from_utf8_unchecked`, so the reader is modelled as the list
of the `size` bytes stored at addresses `data, data+1, ...` in the ambient
memory `mem`; there is no null check in the source. -/
def RawData.as_ref (r : RawData) (mem : Nat → Nat) : List Nat :=
  (List.range r.size).map fun i => mem (r.data + i)

/-- Embeds `impl ToString for RawData` (types.rs, lines 204-209): it copies
the bytes of the `as_ref` string view into an owned string, so it reads
exactly the same bytes. -/
def RawData.to_string (r : RawData) (mem : Nat → Nat) : List Nat :=
  r.as_ref mem

/-- Embeds the trait `TypeInfo` (types.rs, lines 56-70) as a record of the
per-type associated constants.  The field defaults mirror the trait's
defaulted constants: `DEEP_COPY = true`, `VARLEN = false`, and
`SIZE = mem::size_of::<Self::Store>()` (the `storeSize` field records the
byte size of the associated `Store` type). -/
structure TypeInfoImpl where
  storeSize : Nat
  ENUM : DbType
  DEEP_COPY : Bool := true
  VARLEN : Bool := false
  SIZE : Nat := storeSize
deriving DecidableEq, Repr

/-- `impl TypeInfo for UInt32` (types.rs): `Store = u32`, no overrides. -/
def uInt32Info : TypeInfoImpl := { storeSize := 4, ENUM := DbType.UINT32 }

/-- `impl TypeInfo for UInt64`: `Store = u64`, no overrides. -/
def uInt64Info : TypeInfoImpl := { storeSize := 8, ENUM := DbType.UINT64 }

/-- `impl TypeInfo for Int32`: `Store = i32`, no overrides. -/
def int32Info : TypeInfoImpl := { storeSize := 4, ENUM := DbType.INT32 }

/-- `impl TypeInfo for Int64`: `Store = i64`, no overrides. -/
def int64Info : TypeInfoImpl := { storeSize := 8, ENUM := DbType.INT64 }

/-- `impl TypeInfo for Float32`: `Store = f32`, no overrides. -/
def float32Info : TypeInfoImpl := { storeSize := 4, ENUM := DbType.FLOAT32 }

/-- `impl TypeInfo for Float64`: `Store = f64`, no overrides. -/
def float64Info : TypeInfoImpl := { storeSize := 8, ENUM := DbType.FLOAT64 }

/-- `impl TypeInfo for Boolean`: `Store = bool`, no overrides. -/
def booleanInfo : TypeInfoImpl := { storeSize := 1, ENUM := DbType.BOOLEAN }

/-- `impl TypeInfo for Text` (types.rs, lines 117-122): `Store = RawData`,
`DEEP_COPY` set explicitly to `true`, `VARLEN = true`. -/
def textInfo : TypeInfoImpl :=
  { storeSize := RawData.byteSize, ENUM := DbType.TEXT
    DEEP_COPY := true, VARLEN := true }

/-- `impl TypeInfo for Blob` (types.rs, lines 124-128): `Store = RawData`,
`VARLEN = true`; `DEEP_COPY` is left at its default. -/
def blobInfo : TypeInfoImpl :=
  { storeSize := RawData.byteSize, ENUM := DbType.BLOB, VARLEN := true }

/-- The nine `TypeInfo` implementations, in declaration order. -/
def typeInfos : List TypeInfoImpl :=
  [uInt32Info, uInt64Info, int32Info, int64Info,
   float32Info, float64Info, booleanInfo, textInfo, blobInfo]

/-- Embeds `Type::name` (types.rs, lines 141-153). -/
def DbType.name : DbType → String
  | DbType.UINT32 => "UINT32"
  | DbType.UINT64 => "UINT64"
  | DbType.INT32 => "INT32"
  | DbType.INT64 => "INT64"
  | DbType.FLOAT32 => "FLOAT32"
  | DbType.FLOAT64 => "FLOAT64"
  | DbType.BOOLEAN => "BOOLEAN"
  | DbType.TEXT => "TEXT"
  | DbType.BLOB => "BLOB"

/-- Embeds `Type::size_of` (types.rs, lines 159-171): a match delegating to
each implementation's `SIZE` constant. -/
def DbType.size_of : DbType → Nat
  | DbType.UINT32 => uInt32Info.SIZE
  | DbType.UINT64 => uInt64Info.SIZE
  | DbType.INT32 => int32Info.SIZE
  | DbType.INT64 => int64Info.SIZE
  | DbType.FLOAT32 => float32Info.SIZE
  | DbType.FLOAT64 => float64Info.SIZE
  | DbType.BOOLEAN => booleanInfo.SIZE
  | DbType.TEXT => textInfo.SIZE
  | DbType.BLOB => blobInfo.SIZE

/-- Embeds `impl FromStr for Type` (types.rs, lines 174-190): a match on
the nine canonical strings, with every other string mapped to
`DBError::UnknownType` carrying the input. -/
def DbType.from_str (s : String) : Except DBError DbType :=
  if s = "UINT32" then Except.ok DbType.UINT32
  else if s = "UINT64" then Except.ok DbType.UINT64
  else if s = "INT32" then Except.ok DbType.INT32
  else if s = "INT64" then Except.ok DbType.INT64
  else if s = "FLOAT32" then Except.ok DbType.FLOAT32
  else if s = "FLOAT64" then Except.ok DbType.FLOAT64
  else if s = "BOOLEAN" then Except.ok DbType.BOOLEAN
  else if s = "TEXT" then Except.ok DbType.TEXT
  else if s = "BLOB" then Except.ok DbType.BLOB
  else Except.error (DBError.UnknownType s)

/-- Embeds `impl fmt::Display for Type` (types.rs, lines 192-196): display
writes exactly `self.name()`. -/
def DbType.display (t : DbType) : String := t.name

/-- The nine canonical type names, in declaration order. -/
def canonicalNames : List String :=
  ["UINT32", "UINT64", "INT32", "INT64",
   "FLOAT32", "FLOAT64", "BOOLEAN", "TEXT", "BLOB"]

/-- Embeds the zero-sized `NullType` marker and `NULL_VALUE`
(types.rs, lines 211-213). -/
structure NullType where
deriving DecidableEq, Repr

/-- `pub const NULL_VALUE: NullType` (types.rs, line 213). -/
def NULL_VALUE : NullType := {}

/-- An `f32` payload, modelled by its bit pattern: the core performs no
floating-point arithmetic, it only stores and retrieves the value. -/
structure F32 where
  bits : Nat
deriving DecidableEq, Repr

/-- An `f64` payload, modelled by its bit pattern. -/
structure F64 where
  bits : Nat
deriving DecidableEq, Repr

/-- Embeds the tagged union `Value` (types.rs, lines 216-227).  TEXT holds
a borrowed string view and BLOB a borrowed byte view; the borrow itself is
modelled by the payload. -/
inductive Value where
  | NULL
  | UINT32 (v : Nat)
  | UINT64 (v : Nat)
  | INT32 (v : Int)
  | INT64 (v : Int)
  | FLOAT32 (v : F32)
  | FLOAT64 (v : F64)
  | BOOLEAN (v : Bool)
  | TEXT (v : String)
  | BLOB (v : List Nat)

/-- Embeds `impl From<NullType> for Value` (types.rs, lines 229-233). -/
def Value.fromNull (_ : NullType) : Value := Value.NULL

/-- Embeds `impl From<u32> for Value` (types.rs, lines 235-239). -/
def Value.fromU32 (v : Nat) : Value := Value.UINT32 v

/-- Embeds `impl From<u64> for Value` (types.rs, lines 241-245). -/
def Value.fromU64 (v : Nat) : Value := Value.UINT64 v

/-- Embeds `impl From<i32> for Value` (types.rs, lines 247-251). -/
def Value.fromI32 (v : Int) : Value := Value.INT32 v

/-- Embeds `impl From<i64> for Value` (types.rs, lines 253-257). -/
def Value.fromI64 (v : Int) : Value := Value.INT64 v

/-- Embeds `impl From<f32> for Value` (types.rs, lines 259-263). -/
def Value.fromF32 (v : F32) : Value := Value.FLOAT32 v

/-- Embeds `impl From<f64> for Value` (types.rs, lines 265-269). -/
def Value.fromF64 (v : F64) : Value := Value.FLOAT64 v

/-- Embeds `impl From<&str> for Value` (types.rs, lines 271-275). -/
def Value.fromStr (v : String) : Value := Value.TEXT v

/-- Embeds `impl From<&[u8]> for Value` (types.rs, lines 277-281). -/
def Value.fromBytes (v : List Nat) : Value := Value.BLOB v

/-- The disjoint union of the input types for which types.rs implements
`From<_> for Value` (lines 229-281).  The source provides exactly these
nine impls: the null marker, the six numeric scalars, the string view and
the byte view.  There is no `impl From<bool> for Value` in the source. -/
inductive FromInput where
  | null (v : NullType)
  | u32 (v : Nat)
  | u64 (v : Nat)
  | i32 (v : Int)
  | i64 (v : Int)
  | f32 (v : F32)
  | f64 (v : F64)
  | str (v : String)
  | bytes (v : List Nat)

/-- The overloaded `From` family of types.rs (lines 229-281) as one total
function on the disjoint union of the implemented input types; each arm is
the body of the corresponding impl. -/
def Value.fromInput : FromInput → Value
  | FromInput.null n => Value.fromNull n
  | FromInput.u32 v => Value.fromU32 v
  | FromInput.u64 v => Value.fromU64 v
  | FromInput.i32 v => Value.fromI32 v
  | FromInput.i64 v => Value.fromI64 v
  | FromInput.f32 v => Value.fromF32 v
  | FromInput.f64 v => Value.fromF64 v
  | FromInput.str v => Value.fromStr v
  | FromInput.bytes v => Value.fromBytes v

/-- The variant tag of a `Value`, as an enumeration of the ten
constructors. -/
inductive ValueKind where
  | NULL
  | UINT32
  | UINT64
  | INT32
  | INT64
  | FLOAT32
  | FLOAT64
  | BOOLEAN
  | TEXT
  | BLOB
deriving DecidableEq, Repr, Fintype

/-- The variant tag of a `Value`. -/
def Value.kind : Value → ValueKind
  | Value.NULL => ValueKind.NULL
  | Value.UINT32 _ => ValueKind.UINT32
  | Value.UINT64 _ => ValueKind.UINT64
  | Value.INT32 _ => ValueKind.INT32
  | Value.INT64 _ => ValueKind.INT64
  | Value.FLOAT32 _ => ValueKind.FLOAT32
  | Value.FLOAT64 _ => ValueKind.FLOAT64
  | Value.BOOLEAN _ => ValueKind.BOOLEAN
  | Value.TEXT _ => ValueKind.TEXT
  | Value.BLOB _ => ValueKind.BLOB

/-- The `Type` enum member a `Value` variant tag corresponds to:
`NULL` corresponds to none (it is type-polymorphic), every other variant
to exactly one `Type`. -/
def ValueKind.typeOf : ValueKind → Option DbType
  | ValueKind.NULL => none
  | ValueKind.UINT32 => some DbType.UINT32
  | ValueKind.UINT64 => some DbType.UINT64
  | ValueKind.INT32 => some DbType.INT32
  | ValueKind.INT64 => some DbType.INT64
  | ValueKind.FLOAT32 => some DbType.FLOAT32
  | ValueKind.FLOAT64 => some DbType.FLOAT64
  | ValueKind.BOOLEAN => some DbType.BOOLEAN
  | ValueKind.TEXT => some DbType.TEXT
  | ValueKind.BLOB => some DbType.BLOB

/-- A materialized view of rows, the payload of a `CursorChunk::Next`
(operation/mod.rs, line 10).  `RefView` is an external collaborator; the
cursor contract constrains only its row count, which is what is
modelled. -/
structure RefView where
  rows : Nat
deriving DecidableEq, Repr

/-- Embeds `CursorChunk` (operation/mod.rs, lines 8-15): either the next
materialized chunk or end of stream. -/
inductive CursorChunk where
  | Next (view : RefView)
  | End
deriving DecidableEq, Repr

/-- Modelled from the spec: the concrete scan cursor (`ScanView`,
operation/scan_view.rs) that the `Cursor` trait of operation/mod.rs is
implemented by is not under src/.  Per the spec, a bound cursor streams a
fixed underlying dataset of `total` rows; `pos` is the number of rows
already returned. -/
structure ScanCursor where
  total : Nat
  pos : Nat
deriving DecidableEq, Repr

/-- Modelled from the spec: `Cursor::next(rows)` for the scan cursor.  The
caller requests up to `rows` rows; the cursor returns at most that many of
its remaining rows ("may return fewer rows than requested ... but never
more") and `End` once the dataset is exhausted. -/
def ScanCursor.next (c : ScanCursor) (rows : Nat) : CursorChunk × ScanCursor :=
  if c.total ≤ c.pos then
    (CursorChunk.End, c)
  else
    let k := min rows (c.total - c.pos)
    (CursorChunk.Next ⟨k⟩, { c with pos := c.pos + k })

/-- Drives a cursor with a sequence of requested row counts, collecting
the row counts of the returned `Next` chunks; the boolean records whether
an `End` was reached within the sequence. -/
def ScanCursor.run : ScanCursor → List Nat → List Nat × Bool
  | _, [] => ([], false)
  | c, n :: rest =>
    match c.next n with
    | (CursorChunk.End, _) => ([], true)
    | (CursorChunk.Next v, c') =>
      let p := c'.run rest
      (v.rows :: p.1, p.2)

/-!  Theorems. -/

/-- Claim C1: the RawData text readers do not treat a null address as
"absent": `as_ref` and `to_string` on `RawData { data: null, size: 1 }`
read the byte stored at address 0, so their result depends on the contents
of memory at the null address — the readers dereference the null pointer
whenever `size > 0`.  Only a zero `size` avoids any read. -/
theorem rawData_null_reader_dereferences :
    RawData.as_ref ⟨0, 1⟩ (fun _ => 65) = [65] ∧
    RawData.as_ref ⟨0, 1⟩ (fun _ => 66) = [66] ∧
    RawData.to_string ⟨0, 1⟩ (fun _ => 66) = [66] ∧
    RawData.as_ref ⟨0, 0⟩ (fun _ => 65) = [] := by
  refine ⟨rfl, rfl, rfl, rfl⟩

/-- Claim C2, counterexample: the claim says `DEEP_COPY` is false for
`UInt32`, but the `impl TypeInfo for UInt32` does not override the trait
default, so its `DEEP_COPY` is true. -/
theorem uInt32_deep_copy_is_true : uInt32Info.DEEP_COPY = true := rfl

/-- Claim C2, amended: the deep-copy flag defaults to true in the
`TypeInfo` trait and no implementation overrides it to false, so it is
true for every one of the nine types — the fixed-width numeric and
boolean types included — with `Text` even setting it to true explicitly. -/
theorem deep_copy_true_for_all_types :
    typeInfos.all (fun i => i.DEEP_COPY) = true ∧
    textInfo.DEEP_COPY = true ∧ blobInfo.DEEP_COPY = true := by
  refine ⟨rfl, rfl, rfl⟩

/-- Claim C3: for every string in the nine-name canonical set, parsing it
as a `Type` succeeds, and displaying the parsed type yields the same
string back. -/
theorem display_parse_roundtrip (s : String) (h : s ∈ canonicalNames) :
    ∃ t : DbType, DbType.from_str s = Except.ok t ∧ t.display = s := by
  simp only [canonicalNames, List.mem_cons, List.not_mem_nil, or_false] at h
  rcases h with h | h | h | h | h | h | h | h | h <;> subst h
  · exact ⟨DbType.UINT32, rfl, rfl⟩
  · exact ⟨DbType.UINT64, rfl, rfl⟩
  · exact ⟨DbType.INT32, rfl, rfl⟩
  · exact ⟨DbType.INT64, rfl, rfl⟩
  · exact ⟨DbType.FLOAT32, rfl, rfl⟩
  · exact ⟨DbType.FLOAT64, rfl, rfl⟩
  · exact ⟨DbType.BOOLEAN, rfl, rfl⟩
  · exact ⟨DbType.TEXT, rfl, rfl⟩
  · exact ⟨DbType.BLOB, rfl, rfl⟩

/-- Claim C3, witness at the concrete name "TEXT". -/
theorem display_parse_roundtrip_witness :
    ∃ t : DbType, DbType.from_str "TEXT" = Except.ok t ∧ t.display = "TEXT" :=
  display_parse_roundtrip "TEXT" (by decide)

/-- Claim C4: parsing a string that is not one of the nine canonical names
fails with `UnknownType` carrying exactly that string, and parsing
succeeds only on canonical names. -/
theorem from_str_unknown_type (s : String) :
    (s ∉ canonicalNames →
      DbType.from_str s = Except.error (DBError.UnknownType s)) ∧
    (∀ t : DbType, DbType.from_str s = Except.ok t → s ∈ canonicalNames) := by
  by_cases hm : s ∈ canonicalNames
  · exact ⟨fun h => absurd hm h, fun _ _ => hm⟩
  · have hval : DbType.from_str s = Except.error (DBError.UnknownType s) := by
      simp only [canonicalNames, List.mem_cons, List.not_mem_nil, or_false,
        not_or] at hm
      obtain ⟨h1, h2, h3, h4, h5, h6, h7, h8, h9⟩ := hm
      simp [DbType.from_str, h1, h2, h3, h4, h5, h6, h7, h8, h9]
    refine ⟨fun _ => hval, fun t ht => ?_⟩
    rw [hval] at ht
    exact Except.noConfusion ht

/-- Claim C4, witness at the concrete non-canonical string "uint32"
(lower case, hence rejected by the case-sensitive match). -/
theorem from_str_unknown_type_witness :
    DbType.from_str "uint32" = Except.error (DBError.UnknownType "uint32") :=
  (from_str_unknown_type "uint32").1 (by decide)

/-- Claim C5: `Type::size_of` returns the fixed byte width of each
fixed-width variant's native store: 4 for UINT32/INT32/FLOAT32, 8 for
UINT64/INT64/FLOAT64, 1 for BOOLEAN.  (`size_of` is a total function by
construction.) -/
theorem size_of_fixed_width :
    DbType.size_of DbType.UINT32 = 4 ∧ DbType.size_of DbType.UINT64 = 8 ∧
    DbType.size_of DbType.INT32 = 4 ∧ DbType.size_of DbType.INT64 = 8 ∧
    DbType.size_of DbType.FLOAT32 = 4 ∧ DbType.size_of DbType.FLOAT64 = 8 ∧
    DbType.size_of DbType.BOOLEAN = 1 := by
  decide

/-- Claim C6: for the variable-length types TEXT and BLOB, `Type::size_of`
returns the byte size of the `RawData` descriptor — two pointer-sized
words — not the size of any payload. -/
theorem size_of_varlen_descriptor :
    DbType.size_of DbType.TEXT = RawData.byteSize ∧
    DbType.size_of DbType.BLOB = RawData.byteSize ∧
    RawData.byteSize = 2 * ptrWordSize := by
  decide

/-- Claim C7: the nine `From` conversions the source implements are total
and lossless, each mapping its input to the single variant determined by
the input's static type; but the claim's "bool to BOOLEAN" conversion does
not exist — no input kind of the `From` family produces the BOOLEAN
variant, because types.rs has no `impl From<bool> for Value`. -/
theorem value_from_conversions :
    (∀ i : FromInput, (Value.fromInput i).kind ∈
      [ValueKind.NULL, ValueKind.UINT32, ValueKind.UINT64, ValueKind.INT32,
       ValueKind.INT64, ValueKind.FLOAT32, ValueKind.FLOAT64, ValueKind.TEXT,
       ValueKind.BLOB]) ∧
    (∀ n : NullType, Value.fromNull n = Value.NULL) ∧
    (∀ v : Nat, Value.fromU32 v = Value.UINT32 v) ∧
    (∀ v : Nat, Value.fromU64 v = Value.UINT64 v) ∧
    (∀ v : Int, Value.fromI32 v = Value.INT32 v) ∧
    (∀ v : Int, Value.fromI64 v = Value.INT64 v) ∧
    (∀ v : F32, Value.fromF32 v = Value.FLOAT32 v) ∧
    (∀ v : F64, Value.fromF64 v = Value.FLOAT64 v) ∧
    (∀ v : String, Value.fromStr v = Value.TEXT v) ∧
    (∀ v : List Nat, Value.fromBytes v = Value.BLOB v) := by
  refine ⟨fun i => ?_, fun _ => rfl, fun _ => rfl, fun _ => rfl, fun _ => rfl,
    fun _ => rfl, fun _ => rfl, fun _ => rfl, fun _ => rfl, fun _ => rfl⟩
  cases i <;> simp [Value.fromInput, Value.kind, Value.fromNull, Value.fromU32,
    Value.fromU64, Value.fromI32, Value.fromI64, Value.fromF32, Value.fromF64,
    Value.fromStr, Value.fromBytes]

/-- Claim C8: the variant tags of `Value` are in exact correspondence with
the `Type` enum: every non-NULL tag maps to some `Type`, NULL maps to
none, the mapping is injective, and every `Type` is hit. -/
theorem value_kind_type_correspondence :
    (∀ v : Value, v.kind = ValueKind.NULL ∨
      ∃ t : DbType, ValueKind.typeOf v.kind = some t) ∧
    (∀ k : ValueKind, ValueKind.typeOf k = none ↔ k = ValueKind.NULL) ∧
    (∀ k₁ k₂ : ValueKind, ∀ t : DbType,
      ValueKind.typeOf k₁ = some t → ValueKind.typeOf k₂ = some t → k₁ = k₂) ∧
    (∀ t : DbType, ∃ k : ValueKind, ValueKind.typeOf k = some t) := by
  refine ⟨?_, by decide, by decide, by decide⟩
  intro v
  cases v
  case NULL => exact Or.inl rfl
  all_goals exact Or.inr ⟨_, rfl⟩

/-- Claim C8, witness: the injectivity part applied at the concrete tag
pair (TEXT, TEXT) with the concrete type TEXT. -/
theorem value_kind_type_correspondence_witness :
    ValueKind.TEXT = ValueKind.TEXT :=
  value_kind_type_correspondence.2.2.1 ValueKind.TEXT ValueKind.TEXT
    DbType.TEXT rfl rfl

/-- Helper for the cursor claim: for any starting cursor state, every
chunk is bounded by its own call's request, and if the run reaches `End`
the chunk sizes sum to the rows that remained. -/
theorem ScanCursor.run_spec (reqs : List Nat) :
    ∀ c : ScanCursor,
      List.Forall₂ (fun a b => a ≤ b) (c.run reqs).1
        (reqs.take (c.run reqs).1.length) ∧
      ((c.run reqs).2 = true → (c.run reqs).1.sum = c.total - c.pos) := by
  induction reqs with
  | nil =>
    intro c
    refine ⟨List.Forall₂.nil, fun h => ?_⟩
    simp [ScanCursor.run] at h
  | cons n rest ih =>
    intro c
    by_cases h : c.total ≤ c.pos
    · have hrun : ScanCursor.run c (n :: rest) = ([], true) := by
        simp [ScanCursor.run, ScanCursor.next, h]
      rw [hrun]
      refine ⟨List.Forall₂.nil, fun _ => ?_⟩
      simp
      omega
    · have hnext : ScanCursor.next c n =
          (CursorChunk.Next ⟨min n (c.total - c.pos)⟩,
            { c with pos := c.pos + min n (c.total - c.pos) }) := by
        simp [ScanCursor.next, h]
      have hrun : ScanCursor.run c (n :: rest) =
          (min n (c.total - c.pos) ::
            (ScanCursor.run { c with pos := c.pos + min n (c.total - c.pos) }
              rest).1,
           (ScanCursor.run { c with pos := c.pos + min n (c.total - c.pos) }
              rest).2) := by
        simp [ScanCursor.run, hnext]
      obtain ⟨ihf, ihs⟩ :=
        ih { c with pos := c.pos + min n (c.total - c.pos) }
      rw [hrun]
      constructor
      · simp only [List.length_cons, List.take_succ_cons]
        exact List.Forall₂.cons (Nat.min_le_left _ _) ihf
      · intro hend
        have hsum := ihs hend
        have hkr : min n (c.total - c.pos) ≤ c.total - c.pos :=
          Nat.min_le_right _ _
        simp only [List.sum_cons, hsum]
        omega

/-- Claim C9: a bound cursor over a dataset of M rows, driven by any
sequence of `next(n_i)` calls with arbitrary requested counts, returns
chunks each of at most its own call's requested count, and if the
sequence reaches `End`, the chunk row counts sum to exactly M. -/
theorem cursor_chunks_bounded_and_exhaustive (M : Nat) (reqs : List Nat) :
    List.Forall₂ (fun a b => a ≤ b) ((ScanCursor.mk M 0).run reqs).1
      (reqs.take ((ScanCursor.mk M 0).run reqs).1.length) ∧
    (((ScanCursor.mk M 0).run reqs).2 = true →
      ((ScanCursor.mk M 0).run reqs).1.sum = M) := by
  obtain ⟨h1, h2⟩ := ScanCursor.run_spec reqs (ScanCursor.mk M 0)
  exact ⟨h1, fun he => by simpa using h2 he⟩

/-- Claim C9, witness: a 12-row dataset pulled with requests 10, 3, 1000
yields chunks of 10 and 2 rows and then `End`; the sum is exactly 12. -/
theorem cursor_chunks_witness :
    ((ScanCursor.mk 12 0).run [10, 3, 1000]).2 = true ∧
    ((ScanCursor.mk 12 0).run [10, 3, 1000]).1.sum = 12 :=
  ⟨by decide,
    (cursor_chunks_bounded_and_exhaustive 12 [10, 3, 1000]).2 (by decide)⟩

/-- Claim C10: parsing the canonical name of any `Type` variant returns
that same variant: `from_str` is a left inverse of `name` on all nine
variants (hence `name` is injective). -/
theorem from_str_name_left_inverse :
    ∀ t : DbType, DbType.from_str t.name = Except.ok t := by
  intro t
  cases t <;> rfl

end dbkit
